import Mathlib

/-!
A shallow embedding of the entry-extraction pipeline of `de_wiktio`
(`src/de_wiktio/entry.py`), with proofs about its behaviour.

The document parser (`mwparserfromhell`) is an external collaborator.  Parsed
documents (`Wikicode`) are modelled as lists of nodes: template nodes, heading
nodes and text nodes.  A heading node carries the rendered text of its title
together with the list of template nodes occurring inside the title
(`titleTpls`), so that template filters can see templates sitting in headings
while the `matches=` tests of `get_sections` work on the rendered title text.
Template names and parameters are modelled as already-stringified strings; the
regex `matches=` arguments used by the source (`r"\|Deutsch"`, `"Wortart"`,
`"Übersicht"`) contain no metacharacters and are embedded as substring tests
on the name/title (a parameter value that also contains the pattern is not
separately modelled).

Objects with lazily cached, mutable state (`Entry`, `EntryFlexion`,
`WordForm`) are modelled as records whose accessors return
`value × new state × event list`; the event list records the observable work
of a call: `Ev.traverse` for a primitive document-tree operation
(`get_sections` / `filter_templates`) and `Ev.fetchDump` / `Ev.fetchExport`
for an archive or network page lookup.  The archive dictionary is an explicit
association list, the network fetcher an explicit oracle
`F : title → (wikitext, ns)`, and the parser an explicit oracle
`P : markup → Wikicode`.
-/

namespace DeWiktio

/-- Python whitespace characters recognised by `str.strip()` (ASCII range;
template parameters in markup only use these). -/
def pyWsChar (c : Char) : Bool :=
  c = ' ' || c = '\t' || c = '\n' || c = '\r' || c.toNat = 11 || c.toNat = 12

/-- Embedding of Python `str.strip()`: drop leading and trailing whitespace. -/
def pyStrip (s : String) : String :=
  String.mk (((s.data.dropWhile pyWsChar).reverse.dropWhile pyWsChar).reverse)

/-- Embedding of Python `str.isnumeric()` for the ASCII digit keys that occur
as positional template parameters. -/
def pyIsNumeric (s : String) : Bool :=
  !s.data.isEmpty && s.data.all Char.isDigit

/-- Substring occurrence test on character lists. -/
def hasSubChars (pat : List Char) : List Char → Bool
  | [] => pat.isEmpty
  | c :: rest => pat.isPrefixOf (c :: rest) || hasSubChars pat rest

/-- Embedding of `re.search` for a metacharacter-free pattern: does `s`
contain `pat` as a substring. -/
def strHasSub (s pat : String) : Bool := hasSubChars pat.data s.data

/-- One template parameter, already stringified (`str(p.name)`,
`str(p.value)`); positional parameters carry their positional name
("1", "2", ...). -/
structure Param where
  name : String
  value : String
deriving DecidableEq

/-- A template node: its name and its parameter list, in source order. -/
structure Template where
  name : String
  params : List Param
deriving DecidableEq

/-- A node of a parsed document.  A heading carries its level, the rendered
text of its title and the templates occurring inside the title. -/
inductive Node where
  | template (t : Template)
  | heading (level : Nat) (title : String) (titleTpls : List Template)
  | text (s : String)
deriving DecidableEq

/-- A parsed document (`mwparserfromhell.wikicode.Wikicode`). -/
abbrev Wikicode := List Node

def Node.isHeading : Node → Bool
  | .heading _ _ _ => true
  | _ => false

/-- Is this a heading of level at most `lv` (such a heading closes an open
section of level `lv`). -/
def Node.isHeadingLe (lv : Nat) : Node → Bool
  | .heading l _ _ => l ≤ lv
  | _ => false

def Node.headingTitle? : Node → Option String
  | .heading _ t _ => some t
  | _ => none

/-- Templates contributed by one node: template nodes contribute themselves,
headings contribute the templates inside their title. -/
def Node.templates : Node → List Template
  | .template t => [t]
  | .heading _ _ tls => tls
  | .text _ => []

/-- Embedding of `Wikicode.filter_templates()`: all template nodes, in
document order. -/
def filterTemplates (doc : Wikicode) : List Template :=
  doc.flatMap Node.templates

/-- Embedding of `Wikicode.filter_templates(matches=pat)` for the
metacharacter-free patterns used by the source, tested on the template name. -/
def filterTemplatesMatching (pred : String → Bool) (doc : Wikicode) : List Template :=
  (filterTemplates doc).filter (fun t => pred t.name)

/-- Embedding of `get_sections(levels=[lv], matches=pred)`: each section starts
at a level-`lv` heading whose rendered title satisfies `pred` and extends to
(but not including) the next heading of level at most `lv`, so it contains its
own subsections. -/
def getSectionsLevelMatching (lv : Nat) (pred : String → Bool) : Wikicode → List Wikicode
  | [] => []
  | Node.heading l t tls :: rest =>
    if l == lv && pred t then
      (Node.heading l t tls :: rest.takeWhile (fun n => !n.isHeadingLe lv))
        :: getSectionsLevelMatching lv pred rest
    else getSectionsLevelMatching lv pred rest
  | _ :: rest => getSectionsLevelMatching lv pred rest

/-- Embedding of `get_sections(levels=[lv], matches=pred, flat=True)`: as
above but a flat section stops at the next heading of any level, so it does
not contain its subsections. -/
def getSectionsFlatMatching (lv : Nat) (pred : String → Bool) : Wikicode → List Wikicode
  | [] => []
  | Node.heading l t tls :: rest =>
    if l == lv && pred t then
      (Node.heading l t tls :: rest.takeWhile (fun n => !n.isHeading))
        :: getSectionsFlatMatching lv pred rest
    else getSectionsFlatMatching lv pred rest
  | _ :: rest => getSectionsFlatMatching lv pred rest

/-- Helper for `bodySections`: for every heading of the document, the content
after it up to the next heading of the same or lower level (the section body,
subsection content included, its own heading stripped). -/
def bodySectionsAux : Wikicode → List Wikicode
  | [] => []
  | Node.heading l _ _ :: rest =>
    rest.takeWhile (fun n => !n.isHeadingLe l) :: bodySectionsAux rest
  | _ :: rest => bodySectionsAux rest

/-- Embedding of `get_sections(include_headings=False)` (no level filter):
the lead (content before the first heading) followed by the body of every
section at every level, each without its own heading node. -/
def bodySections (doc : Wikicode) : List Wikicode :=
  doc.takeWhile (fun n => !n.isHeading) :: bodySectionsAux doc

/-- Python dict lookup `d.get(title, '')` is `(dictGet d title).getD ""`. -/
def dictGet (d : List (String × String)) (k : String) : Option String :=
  (d.find? (fun kv => kv.1 = k)).map (fun kv => kv.2)

/-- Status string of `from_dump` for a missing or empty page. -/
def stNoContentDump (title : String) : String :=
  "No content for " ++ title ++ " in dump file"

/-- Status string of `from_export` for an empty page. -/
def stNoContentExport (title : String) : String :=
  "No content for " ++ title ++ " in exported page"

/-- Status string of `from_export` for a wrong-namespace page. -/
def stWrongNs (title : String) : String :=
  "No proper wiki namespace found for " ++ title

/-- Status string of `_get_section_de` when no German section is found. -/
def stNoGerman (title : String) : String :=
  "No German section found for " ++ title

/-- Status string of `_get_section_de` when several German sections match. -/
def stAmbiguousGerman (title : String) : String :=
  "More than one German section found for " ++ title

/-- Status string of `Entry.wordforms` when no word-form section is found. -/
def stNoWordForms (title : String) : String :=
  "No German word forms for " ++ title

/-- Status string for zero POS matches (`EntryFlexion.pos`, `WordForm.pos`). -/
def stNoPOS (t : String) : String := "No POS found for " ++ t

/-- Status string for more than one POS match (`EntryFlexion.pos`). -/
def stMultiPOS (t : String) : String := "Multiple POS found for " ++ t

/-- Status string of `EntryFlexion.flexion_tpls` for zero templates. -/
def stNoFlexTpls : String := "No German flexion templates"

/-- Status string of `EntryFlexion.flexion_tpls` for several templates. -/
def stMultiFlexTpls : String := "Multiple German flexion templates"

/-- Status string of `WordForm.wortart_tpls` for zero Wortart templates. -/
def stNoWortart (t : String) : String := "No Wortart template found for " ++ t

/-- The target-language marker test of `_get_section_de`
(`matches=r"\|Deutsch"` searched in the rendered heading title). -/
def germanPred (title : String) : Bool := strHasSub title "|Deutsch"

/-- Embedding of `_EntryBase._get_section_de`, run on the already parsed
document: exactly one matching level-2 section is returned unchanged; zero or
several matches return `none` and record a diagnostic status. -/
def get_section_de (parsed : Wikicode) (title status : String) :
    Option Wikicode × String :=
  match getSectionsLevelMatching 2 germanPred parsed with
  | [s] => (some s, status)
  | [] => (none, stNoGerman title)
  | _ => (none, stAmbiguousGerman title)

/-- Observable effects of an accessor call: a primitive document-tree
traversal, an archive-dump lookup, or a network-export lookup. -/
inductive Ev where
  | traverse
  | fetchDump (title : String)
  | fetchExport (title : String)
deriving DecidableEq

def Ev.isFetch : Ev → Bool
  | .traverse => false
  | _ => true

namespace Tools

/-- Python dict insertion `d[k] = v`: an existing key keeps its position and
gets the new value, a fresh key is appended. -/
def pyDictInsert (d : List (String × String)) (k v : String) :
    List (String × String) :=
  if d.any (fun kv => kv.1 = k) then
    d.map (fun kv => if kv.1 = k then (k, v) else kv)
  else d ++ [(k, v)]

/-- Embedding of `Tools.template_to_dict`: the dict comprehension
`\x7bstr(p.name).strip(): str(p.value).strip() for p in template.params\x7d`. -/
def template_to_dict (t : Template) : List (String × String) :=
  t.params.foldl (fun d p => pyDictInsert d (pyStrip p.name) (pyStrip p.value)) []

end Tools

/-- State of an `EntryFlexion` page object (namespace "108"). -/
structure EntryFlexion where
  title : String
  text : String
  status : String
  extracted_from : Option String
  parsed : Wikicode
  german : Option Wikicode
  posCache : Option (List String)
  flexTplsCache : Option (List Template)
deriving DecidableEq

/-- Constructor body of `EntryFlexion.__init__`: the `_EntryBase` fields plus
the eager `_get_section_de` call (run even when the incoming status is not
"OK", possibly overwriting it). -/
def EntryFlexion.make (P : String → Wikicode) (title wikitext status : String)
    (extracted_from : Option String) : EntryFlexion :=
  let parsed := P wikitext
  let gs := get_section_de parsed title status
  ⟨title, wikitext, gs.2, extracted_from, parsed, gs.1, none, none⟩

/-- The wiki namespace of Flexion pages (`EntryFlexion.NS`). -/
def nsFlexion : String := "108"

/-- Embedding of `EntryFlexion.from_dump`: look the title up in the archive
dictionary; a missing or empty page gives the no-content status. -/
def EntryFlexion.from_dump (P : String → Wikicode) (D : List (String × String))
    (title : String) : EntryFlexion :=
  let wikitext := (dictGet D title).getD ""
  let status := if wikitext ≠ "" then "OK" else stNoContentDump title
  EntryFlexion.make P title wikitext status (some "from dump")

/-- Embedding of `EntryFlexion.from_export`: `F title = (wikitext, ns)` models
the `PageExport` network fetch; empty wikitext gives the no-content status, a
wrong namespace empties the text and gives the wrong-namespace status. -/
def EntryFlexion.from_export (P : String → Wikicode) (F : String → String × String)
    (title : String) : EntryFlexion :=
  let w := (F title).1
  if w = "" then EntryFlexion.make P title w (stNoContentExport title) (some "from export")
  else if (F title).2 ≠ nsFlexion then
    EntryFlexion.make P title "" (stWrongNs title) (some "from export")
  else EntryFlexion.make P title w "OK" (some "from export")

/-- The grammatical-category tokens of the `EntryFlexion.pos` regex
`(Adjektiv|Verb|Adverb|Gerundivum|Numerale)`, in alternation order. -/
def posTokens : List String := ["Adjektiv", "Verb", "Adverb", "Gerundivum", "Numerale"]

/-- The token (if any) matching at the current position; at any single
position at most one of the alternation tokens can match. -/
def tokenAt (l : List Char) : Option String :=
  posTokens.find? (fun tok => tok.data.isPrefixOf l)

/-- Embedding of `re.search` for the POS alternation: the token matched at the
leftmost matching position of the scanned string. -/
def searchTokens : List Char → Option String
  | [] => none
  | c :: rest =>
    match tokenAt (c :: rest) with
    | some tok => some tok
    | none => searchTokens rest

/-- Embedding of the `EntryFlexion.flexion_tpls` property: cached once; on a
non-"OK" status it returns `[]` without caching or traversal; otherwise all
templates of the body of the German section (headings excluded) are collected
and a zero/multiple count records a diagnostic status. -/
def EntryFlexion.flexion_tpls (f : EntryFlexion) :
    List Template × EntryFlexion × List Ev :=
  match f.flexTplsCache with
  | some ts => (ts, f, [])
  | none =>
    if f.status = "OK" then
      let ts := (bodySections (f.german.getD [])).flatMap filterTemplates
      let st :=
        if ts = [] then stNoFlexTpls
        else if ts.length > 1 then stMultiFlexTpls
        else f.status
      (ts, { f with status := st, flexTplsCache := some ts }, [Ev.traverse])
    else ([], f, [])

/-- Embedding of the `EntryFlexion.pos` property: cached once; on a non-"OK"
status it returns `[]` without caching; otherwise every flexion template whose
name matches a POS token contributes that token, in document order, and a
zero/multiple count records a diagnostic status (the list is returned in every
case). -/
def EntryFlexion.pos (f : EntryFlexion) : List String × EntryFlexion × List Ev :=
  match f.posCache with
  | some ps => (ps, f, [])
  | none =>
    if f.status = "OK" then
      let r := f.flexion_tpls
      let ps := r.1.filterMap (fun t => searchTokens t.name.data)
      let st1 := if ps = [] then stNoPOS f.title else r.2.1.status
      let st2 := if ps.length > 1 then stMultiPOS f.title else st1
      (ps, { r.2.1 with status := st2, posCache := some ps }, r.2.2)
    else ([], f, [])

/-- Embedding of `EntryFlexion.inflections`: each flexion template converted
through `Tools.template_to_dict`. -/
def EntryFlexion.inflections (f : EntryFlexion) :
    List (List (String × String)) × EntryFlexion × List Ev :=
  let r := f.flexion_tpls
  (r.1.map Tools.template_to_dict, r.2.1, r.2.2)

/-- State of a `WordForm` object.  The parent `Entry` is only ever read for
its `title` and `extracted_from`, recorded here as snapshot fields.
`flexCacheMangled` stands for the name-mangled `_WordForm__flexionseite`
attribute, which is written but never found by the `hasattr` guard. -/
structure WordForm where
  wordform : Wikicode
  status : String
  entryTitle : String
  entryFrom : Option String
  posCache : Option (List String)
  wortartCache : Option (List Template)
  uebersichtCache : Option (List Template)
  flexCacheMangled : Option (Option EntryFlexion)
deriving DecidableEq

/-- Constructor `WordForm(form, entry=self)`. -/
def WordForm.make (sec : Wikicode) (entryTitle : String)
    (entryFrom : Option String) : WordForm :=
  ⟨sec, "OK", entryTitle, entryFrom, none, none, none, none⟩

/-- Embedding of `WordForm.heading.title`: the title of the first heading of
the wrapped section (the source would raise on a section without headings;
word-form sections always start with their heading). -/
def WordForm.headingTitle (w : WordForm) : String :=
  (w.wordform.filterMap Node.headingTitle?).headD ""

/-- Embedding of the `WordForm.wortart_tpls` property: cached once, no status
check; zero matches record the no-Wortart diagnostic. -/
def WordForm.wortart_tpls (w : WordForm) : List Template × WordForm × List Ev :=
  match w.wortartCache with
  | some ts => (ts, w, [])
  | none =>
    let ts := filterTemplatesMatching (fun n => strHasSub n "Wortart") w.wordform
    let st := if ts.length = 0 then stNoWortart w.headingTitle else w.status
    (ts, { w with status := st, wortartCache := some ts }, [Ev.traverse])

/-- Embedding of `tpl.get('1', default=None)` followed by `str(...)`: the last
parameter whose stripped name is "1", as its value text (a positional
parameter stringifies to its value). -/
def tplGet1 (t : Template) : Option String :=
  (t.params.reverse.find? (fun p => pyStrip p.name = "1")).map (fun p => p.value)

/-- Embedding of the `WordForm.pos` property: cached once, no status check;
the first positional parameter of each Wortart template, in document order;
an empty result records the per-instance no-POS diagnostic. -/
def WordForm.pos (w : WordForm) : List String × WordForm × List Ev :=
  match w.posCache with
  | some ps => (ps, w, [])
  | none =>
    let r := w.wortart_tpls
    let ps := r.1.filterMap tplGet1
    let st := if ps = [] then stNoPOS r.2.1.headingTitle else r.2.1.status
    (ps, { r.2.1 with status := st, posCache := some ps }, r.2.2)

/-- Embedding of the `WordForm.übersichten_tpls` property: cached once, no
status check, no status write. -/
def WordForm.uebersichten_tpls (w : WordForm) : List Template × WordForm × List Ev :=
  match w.uebersichtCache with
  | some ts => (ts, w, [])
  | none =>
    let ts := filterTemplatesMatching (fun n => strHasSub n "Übersicht") w.wordform
    (ts, { w with uebersichtCache := some ts }, [Ev.traverse])

/-- The key filter of `WordForm.inflections(all=False)`: keep a key iff it
does not contain "Bild" and is not purely numeric. -/
def keyKept (k : String) : Bool := !strHasSub k "Bild" && !pyIsNumeric k

/-- Embedding of `WordForm.inflections(all)`: every Übersicht template as a
dict; with `all=False` each dict is filtered through `keyKept`. -/
def WordForm.inflections (all : Bool) (w : WordForm) :
    List (List (String × String)) × WordForm × List Ev :=
  let r := w.uebersichten_tpls
  let flexions := r.1.map Tools.template_to_dict
  if all then (flexions, r.2.1, r.2.2)
  else (flexions.map (fun d => d.filter (fun kv => keyKept kv.1)), r.2.1, r.2.2)

/-- Embedding of the `WordForm._flexionseite` property.

The source guards the body with `hasattr(self, '__flexionseite')`, but every
assignment in the class body targets the name-mangled attribute
`_WordForm__flexionseite`; the unmangled name tested by `hasattr` is never
created, so the guard is always false and the body re-runs on every access.
The embedding therefore only ever writes `flexCacheMangled`, never reads it. -/
def WordForm.flexionseite (P : String → Wikicode) (D : List (String × String))
    (F : String → String × String) (w : WordForm) :
    Option EntryFlexion × WordForm × List Ev :=
  if w.status ≠ "OK" then (none, { w with flexCacheMangled := some none }, [])
  else
    let r := w.pos
    if ["Verb", "Adjektiv"].any (fun word => r.1.contains word) then
      let title := "Flexion:" ++ w.entryTitle
      if w.entryFrom = some "from export" then
        let fx := EntryFlexion.from_export P F title
        (some fx, { r.2.1 with flexCacheMangled := some (some fx) },
          r.2.2 ++ [Ev.fetchExport title])
      else
        let fx := EntryFlexion.from_dump P D title
        (some fx, { r.2.1 with flexCacheMangled := some (some fx) },
          r.2.2 ++ [Ev.fetchDump title])
    else (none, { r.2.1 with flexCacheMangled := some none }, r.2.2)

/-- The newline character. -/
def nl : Char := '\n'

/-- Scanner for the non-greedy group `(.+?)` of `other_content_extract`
(DOTALL): `acc` holds the consumed content (reversed, at least one character);
stop at the first position where the remaining text starts with a blank line
("\n\n"), fail at end of text. -/
def scanContent (acc : List Char) : List Char → Option (List Char)
  | [] => none
  | c :: rest =>
    if c = nl ∧ rest.head? = some nl then some acc.reverse
    else scanContent (c :: acc) rest

/-- Match attempt at one position: the marker `"\n\n\x7b\x7b" ++ name ++ "\x7d\x7d\n"`
must start here, followed by at least one content character and a terminating
blank line. -/
def tryAt (mk s : List Char) : Option (List Char) :=
  if mk.isPrefixOf s then
    match s.drop mk.length with
    | [] => none
    | c :: rest => scanContent [c] rest
  else none

/-- Leftmost-match search: try every start position left to right. -/
def searchFrom (mk : List Char) : List Char → Option (List Char)
  | [] => none
  | c :: rest =>
    match tryAt mk (c :: rest) with
    | some out => some out
    | none => searchFrom mk rest

/-- The marker string of `WordForm.other_content_extract`: the raw-text
pattern is `'\n\n\{\{' + name + '\}\}\n(.+?)\n\n'` (DOTALL). -/
def ocMarker (name : String) : String := "\n\n\x7b\x7b" ++ name ++ "\x7d\x7d\n"

/-- Embedding of `WordForm.other_content_extract(name)` run on the raw section
text `str(self.wordform)`.  The source interpolates `name` into the regex
verbatim; the embedding treats it literally, which is faithful exactly for
names without regex metacharacters (the documented labels: `Bedeutungen`,
`Beispiele`, `Synonyme`, `Sprichwörter`, ...).  The `strip_code` post-pass only
rewrites a found group and never turns it into `None`, so it is omitted. -/
def other_content_extract (name text : String) : Option String :=
  (searchFrom (ocMarker name).data text.data).map (fun cs => String.mk cs)

/-- Characters the regex engine treats literally (no metacharacter). -/
def regexPlainChar (c : Char) : Bool :=
  !(c ∈ ['\\', '.', '^', '$', '*', '+', '?', '(', ')', '[', ']', '|',
         Char.ofNat 123, Char.ofNat 125])

/-- State of an `Entry` page object (namespace "0"). -/
structure Entry where
  title : String
  text : String
  status : String
  extracted_from : Option String
  parsed : Wikicode
  german : Option Wikicode
  wordformsCache : Option (List WordForm)
deriving DecidableEq

/-- Constructor body of `Entry.__init__`: the `_EntryBase` fields plus the
eager `_get_section_de` call (run even when the incoming status is not "OK",
possibly overwriting it). -/
def Entry.make (P : String → Wikicode) (title wikitext status : String)
    (extracted_from : Option String) : Entry :=
  let parsed := P wikitext
  let gs := get_section_de parsed title status
  ⟨title, wikitext, gs.2, extracted_from, parsed, gs.1, none⟩

/-- Embedding of `Entry.from_dump`. -/
def Entry.from_dump (P : String → Wikicode) (D : List (String × String))
    (title : String) : Entry :=
  let wikitext := (dictGet D title).getD ""
  let status := if wikitext ≠ "" then "OK" else stNoContentDump title
  Entry.make P title wikitext status (some "from dump")

/-- Embedding of the `Entry.wordforms` property: cached once; on a non-"OK"
status it returns `[]` without caching or traversal; otherwise the flat
level-3 sections of the German section whose heading matches "Wortart" are
wrapped as `WordForm`s; zero sections record a diagnostic status. -/
def Entry.wordforms (e : Entry) : List WordForm × Entry × List Ev :=
  match e.wordformsCache with
  | some ws => (ws, e, [])
  | none =>
    if e.status = "OK" then
      let secs := getSectionsFlatMatching 3 (fun t => strHasSub t "Wortart")
        (e.german.getD [])
      let st := if secs.length = 0 then stNoWordForms e.title else e.status
      let ws := secs.map (fun sec => WordForm.make sec e.title e.extracted_from)
      (ws, { e with status := st, wordformsCache := some ws }, [Ev.traverse])
    else ([], e, [])

/-- Operations available on a `WordForm` (used to state status monotonicity
over arbitrary call sequences). -/
inductive WfOp where
  | wortart
  | posTags
  | uebersicht
  | overviewAll
  | overviewFiltered
  | flexPage
deriving DecidableEq

/-- State transformer of one `WordForm` operation. -/
def wfStep (P : String → Wikicode) (D : List (String × String))
    (F : String → String × String) : WfOp → WordForm → WordForm
  | .wortart, w => (w.wortart_tpls).2.1
  | .posTags, w => (w.pos).2.1
  | .uebersicht, w => (w.uebersichten_tpls).2.1
  | .overviewAll, w => (WordForm.inflections true w).2.1
  | .overviewFiltered, w => (WordForm.inflections false w).2.1
  | .flexPage, w => (w.flexionseite P D F).2.1

/-- Operations available on an `EntryFlexion`. -/
inductive FxOp where
  | posTags
  | flexTpls
  | infl
deriving DecidableEq

/-- State transformer of one `EntryFlexion` operation. -/
def fxStep : FxOp → EntryFlexion → EntryFlexion
  | .posTags, f => (f.pos).2.1
  | .flexTpls, f => (f.flexion_tpls).2.1
  | .infl, f => (f.inflections).2.1

/-- Iterated `Entry.wordforms` calls (the only derivation of `Entry`). -/
def entryWfIter : Nat → Entry → Entry
  | 0, e => e
  | n + 1, e => entryWfIter n ((e.wordforms).2.1)

/-- A concrete demo parser used to instantiate theorems: the empty markup
parses to the empty document. -/
def P0 : String → Wikicode := fun s => if s = "" then [] else [Node.text s]

/-- A concrete demo network fetcher: every page comes back empty. -/
def F0 : String → String × String := fun _ => ("", "")

/-- Demo template `\x7b\x7bSprache|Deutsch\x7d\x7d`. -/
def tplSprache : Template := ⟨"Sprache", [⟨"1", "Deutsch"⟩]⟩

/-- Demo German level-2 heading (its rendered title contains "|Deutsch"). -/
def hdGermanHaus : Node :=
  Node.heading 2 "Haus (\x7b\x7bSprache|Deutsch\x7d\x7d)" [tplSprache]

/-- Demo document with exactly one German level-2 section. -/
def docOneGerman : Wikicode := [hdGermanHaus, Node.text "body"]

/-- Demo document with no German level-2 section. -/
def docNoGerman : Wikicode := [Node.heading 2 "Haus (English)" [], Node.text "body"]

/-- Demo document with two German level-2 sections. -/
def docTwoGerman : Wikicode := [hdGermanHaus, Node.text "a", hdGermanHaus, Node.text "b"]

/-- Demo flexion template whose name matches the token "Verb". -/
def tplVerbFlex : Template := ⟨"Deutsch Verb Flexion", [⟨"1", "x"⟩]⟩

/-- Demo flexion template whose name matches the token "Adjektiv". -/
def tplAdjFlex : Template := ⟨"Deutsch Adjektiv Flexion", []⟩

/-- Demo flexion page body with two distinct POS matches. -/
def flexDocMulti : Wikicode :=
  [hdGermanHaus, Node.template tplVerbFlex, Node.template tplAdjFlex]

/-- Demo `EntryFlexion` state with two distinct POS matches. -/
def flexStateMulti : EntryFlexion :=
  ⟨"Flexion:Haus", "", "OK", some "from dump", flexDocMulti, some flexDocMulti,
    none, none⟩

/-- Demo `EntryFlexion` state with no flexion template at all. -/
def flexStateEmpty : EntryFlexion :=
  ⟨"Flexion:leer", "", "OK", some "from dump", [hdGermanHaus], some [hdGermanHaus],
    none, none⟩

/-- Demo Übersicht template. -/
def tplUebersicht : Template := ⟨"Deutsch Substantiv Übersicht", [⟨"Genus", "n"⟩]⟩

/-- Demo word-form section with an Übersicht template but no Wortart
template. -/
def wfSectionNoWortart : Wikicode :=
  [Node.heading 3 "Test" [], Node.template tplUebersicht]

/-- Demo `WordForm` over `wfSectionNoWortart`. -/
def wfNoWortart : WordForm := WordForm.make wfSectionNoWortart "Haus" (some "from dump")

/-- The same word form after a `wortart_tpls` call recorded the no-Wortart
diagnostic. -/
def wfNoWortartTouched : WordForm := (wfNoWortart.wortart_tpls).2.1

/-- Demo Wortart template classifying a verb. -/
def tplWortartVerb : Template := ⟨"Wortart", [⟨"1", "Verb"⟩, ⟨"2", "Deutsch"⟩]⟩

/-- Demo word-form section of a verb (the Wortart template sits inside the
heading title, as on real pages). -/
def wfVerbSection : Wikicode :=
  [Node.heading 3 "gehen (\x7b\x7bWortart|Verb|Deutsch\x7d\x7d)" [tplWortartVerb]]

/-- Demo verb `WordForm` whose parent entry came from the archive dump. -/
def wfVerb : WordForm := WordForm.make wfVerbSection "gehen" (some "from dump")

/-- Demo verb `WordForm` whose parent entry came from the network export. -/
def wfVerbExport : WordForm := WordForm.make wfVerbSection "gehen" (some "from export")

/-- Demo noun word-form section. -/
def wfSubstSection : Wikicode :=
  [Node.heading 3 "Haus (\x7b\x7bWortart|Substantiv|Deutsch\x7d\x7d)"
      [⟨"Wortart", [⟨"1", "Substantiv"⟩, ⟨"2", "Deutsch"⟩]⟩],
    Node.template tplUebersicht]

/-- Demo noun `WordForm`. -/
def wfSubst : WordForm := WordForm.make wfSubstSection "Haus" (some "from dump")

/-- Demo template with two parameters sharing one stripped name. -/
def tplDupParams : Template := ⟨"T", [⟨"a", "1"⟩, ⟨"a", "2"⟩]⟩

/-- Demo raw section text containing one well-formed labeled paragraph. -/
def bedeutungenText : String :=
  "Intro\n\n\x7b\x7bBedeutungen\x7d\x7d\n:[1] Gebäude\n\nRest"

/-- Demo `Entry` state whose status is a retrieval diagnostic. -/
def entryBad : Entry :=
  ⟨"X", "", stNoContentDump "X", some "from dump", [], none, none⟩

/-- Demo `EntryFlexion` state whose status is a diagnostic. -/
def flexBad : EntryFlexion :=
  ⟨"X", "", stNoFlexTpls, some "from dump", [], none, none, none⟩

/-! ## Helper lemmas -/

/-- A string with more than two leading characters is never the success
marker "OK". -/
theorem append_ne_OK (a b : String) (h : 2 < a.length) : a ++ b ≠ "OK" := by
  obtain ⟨la⟩ := a
  obtain ⟨lb⟩ := b
  intro he
  have hd : la ++ lb = "OK".data := congrArg String.data he
  have h2 : (la ++ lb).length = 2 := by rw [hd]; rfl
  rw [List.length_append] at h2
  have h3 : 2 < la.length := h
  omega

theorem stNoGerman_ne (t : String) : stNoGerman t ≠ "OK" := by
  unfold stNoGerman; exact append_ne_OK _ _ (by decide)

theorem stAmbiguousGerman_ne (t : String) : stAmbiguousGerman t ≠ "OK" := by
  unfold stAmbiguousGerman; exact append_ne_OK _ _ (by decide)

theorem stNoWordForms_ne (t : String) : stNoWordForms t ≠ "OK" := by
  unfold stNoWordForms; exact append_ne_OK _ _ (by decide)

theorem stNoPOS_ne (t : String) : stNoPOS t ≠ "OK" := by
  unfold stNoPOS; exact append_ne_OK _ _ (by decide)

theorem stMultiPOS_ne (t : String) : stMultiPOS t ≠ "OK" := by
  unfold stMultiPOS; exact append_ne_OK _ _ (by decide)

theorem stNoWortart_ne (t : String) : stNoWortart t ≠ "OK" := by
  unfold stNoWortart; exact append_ne_OK _ _ (by decide)

theorem stNoFlexTpls_ne : stNoFlexTpls ≠ "OK" := by decide

theorem stMultiFlexTpls_ne : stMultiFlexTpls ≠ "OK" := by decide

/-! ## C1 -/

/-- C1: `_get_section_de` collects the level-2 sections whose title matches
the German-language marker pattern; exactly one match is returned with the
status left "OK"; zero matches return `none` and set the no-section
diagnostic; several matches return `none` and set the ambiguous-section
diagnostic. -/
theorem get_section_de_cases (parsed : Wikicode) (title : String) :
    (∀ s, getSectionsLevelMatching 2 germanPred parsed = [s] →
        get_section_de parsed title "OK" = (some s, "OK")) ∧
    (getSectionsLevelMatching 2 germanPred parsed = [] →
        get_section_de parsed title "OK" = (none, stNoGerman title)) ∧
    (∀ s t rest, getSectionsLevelMatching 2 germanPred parsed = s :: t :: rest →
        get_section_de parsed title "OK" = (none, stAmbiguousGerman title)) := by
  refine ⟨?_, ?_, ?_⟩
  · intro s hs; simp [get_section_de, hs]
  · intro hs; simp [get_section_de, hs]
  · intro s t rest hs; simp [get_section_de, hs]

/-- Witness for C1 at concrete documents with one, zero and two German
sections. -/
theorem get_section_de_cases_witness :
    get_section_de docOneGerman "Haus" "OK" = (some docOneGerman, "OK") ∧
    get_section_de docNoGerman "Haus" "OK" = (none, stNoGerman "Haus") ∧
    get_section_de docTwoGerman "Haus" "OK" = (none, stAmbiguousGerman "Haus") :=
  ⟨(get_section_de_cases docOneGerman "Haus").1 docOneGerman (by decide),
   (get_section_de_cases docNoGerman "Haus").2.1 (by decide),
   (get_section_de_cases docTwoGerman "Haus").2.2
     [hdGermanHaus, Node.text "a"] [hdGermanHaus, Node.text "b"] [] (by decide)⟩

/-! ## C2 -/

/-- C2 counterexample: for a title absent from the archive mapping the Entry
ends with the no-German-section status — the no-content diagnostic recorded by
`from_dump` is overwritten by the eager `_get_section_de` call of
`Entry.__init__`. -/
theorem from_dump_missing_cex :
    (Entry.from_dump P0 [] "Ghost").status = stNoGerman "Ghost" ∧
    stNoGerman "Ghost" ≠ stNoContentDump "Ghost" := by decide

/-- C2 amended: for a title absent from the archive mapping, `from_dump`
raises nothing; the resulting Entry has an empty word-form list and performs
no traversal for it, but its status is the no-German-section diagnostic (the
no-content status is overwritten during construction). -/
theorem from_dump_missing_behavior (P : String → Wikicode)
    (D : List (String × String)) (title : String)
    (hP : P "" = []) (hD : dictGet D title = none) :
    (Entry.from_dump P D title).status = stNoGerman title ∧
    (Entry.from_dump P D title).german = none ∧
    ((Entry.from_dump P D title).wordforms).1 = [] ∧
    ((Entry.from_dump P D title).wordforms).2.2 = [] := by
  have hne : stNoGerman title ≠ "OK" := stNoGerman_ne title
  unfold Entry.from_dump Entry.make
  rw [hD]
  simp [hP, get_section_de, getSectionsLevelMatching, Entry.wordforms, hne]

/-- Witness for C2 at a concrete empty archive. -/
theorem from_dump_missing_behavior_witness :
    (Entry.from_dump P0 [] "Ghost").status = stNoGerman "Ghost" ∧
    (Entry.from_dump P0 [] "Ghost").german = none ∧
    ((Entry.from_dump P0 [] "Ghost").wordforms).1 = [] ∧
    ((Entry.from_dump P0 [] "Ghost").wordforms).2.2 = [] :=
  from_dump_missing_behavior P0 [] "Ghost" rfl rfl

/-! ## C6 -/

/-- C6: `inflections(all=False)` equals `inflections(all=True)` with, in each
table, exactly the keys containing "Bild" or purely numeric removed; all other
pairs are preserved verbatim, in their key order, and the order of tables is
preserved (both calls also leave the object in the same state). -/
theorem inflections_filter_spec (w : WordForm) :
    (WordForm.inflections false w).1
      = ((WordForm.inflections true w).1).map
          (fun d => d.filter (fun kv => keyKept kv.1)) ∧
    (WordForm.inflections false w).2.1 = (WordForm.inflections true w).2.1 := by
  unfold WordForm.inflections
  simp

/-! ## C9 -/

/-- C9 counterexample: a template with two parameters sharing the stripped
name "a" yields a one-entry mapping (the later value wins), not one entry per
template parameter. -/
theorem template_to_dict_dup_cex :
    Tools.template_to_dict tplDupParams = [("a", "2")] ∧
    tplDupParams.params.length = 2 := by decide

/-- Helper for C9: folding the Python dict insertion over parameters whose
stripped names are pairwise distinct and disjoint from the accumulator keys
appends one entry per parameter, in order. -/
theorem foldl_pyDictInsert (ps : List Param) (d : List (String × String))
    (hd : ∀ p ∈ ps, ∀ kv ∈ d, kv.1 ≠ pyStrip p.name)
    (hn : (ps.map (fun p => pyStrip p.name)).Nodup) :
    ps.foldl (fun acc p => Tools.pyDictInsert acc (pyStrip p.name) (pyStrip p.value)) d
      = d ++ ps.map (fun p => (pyStrip p.name, pyStrip p.value)) := by
  induction ps generalizing d with
  | nil => simp
  | cons p ps ih =>
    simp only [List.map_cons, List.nodup_cons] at hn
    have hnone : (d.any (fun kv => kv.1 = pyStrip p.name)) = false := by
      rw [Bool.eq_false_iff]
      intro hany
      obtain ⟨kv, hkv, hk⟩ := List.any_eq_true.mp hany
      exact hd p (by simp) kv hkv (by simpa using hk)
    rw [List.foldl_cons, Tools.pyDictInsert, if_neg (by simp [hnone])]
    rw [ih (d ++ [(pyStrip p.name, pyStrip p.value)])]
    · simp
    · intro q hq kv hkv
      rcases List.mem_append.mp hkv with h1 | h2
      · exact hd q (List.mem_cons_of_mem _ hq) kv h1
      · have hkv1 : kv.1 = pyStrip p.name := by
          simp at h2
          simp [h2]
        rw [hkv1]
        intro hco
        exact hn.1 (by rw [hco]; exact List.mem_map_of_mem _ hq)
    · exact hn.2

/-- C9 amended: `template_to_dict` is a pure total function producing, for a
template whose stripped parameter names are pairwise distinct, one entry per
parameter in the original order, with name and value whitespace-stripped;
duplicate stripped names collapse into one entry whose value is the last
occurrence. -/
theorem template_to_dict_nodup_spec (t : Template)
    (hn : (t.params.map (fun p => pyStrip p.name)).Nodup) :
    Tools.template_to_dict t
      = t.params.map (fun p => (pyStrip p.name, pyStrip p.value)) := by
  unfold Tools.template_to_dict
  rw [foldl_pyDictInsert t.params [] (by simp) hn]
  simp

/-- Witness for C9 at a concrete template. -/
theorem template_to_dict_nodup_spec_witness :
    Tools.template_to_dict tplUebersicht
      = tplUebersicht.params.map (fun p => (pyStrip p.name, pyStrip p.value)) :=
  template_to_dict_nodup_spec tplUebersicht (by decide)

/-! ## C3 -/

/-- C3 counterexample: a WordForm whose status is already a diagnostic (set by
a previous `wortart_tpls` call) still traverses its section on
`inflections(all=True)` and returns a non-empty overview-table list. -/
theorem shortcircuit_cex :
    wfNoWortartTouched.status ≠ "OK" ∧
    (WordForm.inflections true wfNoWortartTouched).1 = [[("Genus", "n")]] ∧
    (WordForm.inflections true wfNoWortartTouched).2.2 = [Ev.traverse] := by
  decide

/-- C3 amended: the status short-circuit holds for `Entry.wordforms`,
`EntryFlexion.pos`, `EntryFlexion.flexion_tpls`, `EntryFlexion.inflections`
and `WordForm._flexionseite` (empty or null result, no traversal, no lookup);
`WordForm.pos` and the overview-table accessors perform no status check. -/
theorem shortcircuit_amended (P : String → Wikicode) (D : List (String × String))
    (F : String → String × String) (e : Entry) (f : EntryFlexion) (w : WordForm)
    (he : e.status ≠ "OK") (hec : e.wordformsCache = none)
    (hf : f.status ≠ "OK") (hfp : f.posCache = none) (hft : f.flexTplsCache = none)
    (hw : w.status ≠ "OK") :
    e.wordforms = ([], e, []) ∧
    f.pos = ([], f, []) ∧
    f.flexion_tpls = ([], f, []) ∧
    (f.inflections).1 = [] ∧ (f.inflections).2.1 = f ∧ (f.inflections).2.2 = [] ∧
    (w.flexionseite P D F).1 = none ∧ (w.flexionseite P D F).2.2 = [] := by
  have h1 : e.wordforms = ([], e, []) := by
    simp [Entry.wordforms, hec, he]
  have h3 : f.flexion_tpls = ([], f, []) := by
    simp [EntryFlexion.flexion_tpls, hft, hf]
  have h2 : f.pos = ([], f, []) := by
    simp [EntryFlexion.pos, hfp, hf]
  have h4 : f.inflections = ([], f, []) := by
    unfold EntryFlexion.inflections
    rw [h3]
    simp
  have h5 : (w.flexionseite P D F).1 = none ∧ (w.flexionseite P D F).2.2 = [] := by
    unfold WordForm.flexionseite
    rw [if_pos hw]
    exact ⟨rfl, rfl⟩
  exact ⟨h1, h2, h3, by rw [h4], by rw [h4], by rw [h4], h5.1, h5.2⟩

/-- Witness for C3 (amended) at concrete non-"OK" states. -/
theorem shortcircuit_amended_witness :
    entryBad.wordforms = ([], entryBad, []) ∧
    flexBad.pos = ([], flexBad, []) ∧
    flexBad.flexion_tpls = ([], flexBad, []) ∧
    (flexBad.inflections).1 = [] ∧ (flexBad.inflections).2.1 = flexBad ∧
    (flexBad.inflections).2.2 = [] ∧
    (wfNoWortartTouched.flexionseite P0 [] F0).1 = none ∧
    (wfNoWortartTouched.flexionseite P0 [] F0).2.2 = [] :=
  shortcircuit_amended P0 [] F0 entryBad flexBad wfNoWortartTouched
    (by decide) rfl (by decide) rfl rfl (by decide)

/-! ## C4 -/

theorem entry_wordforms_status_mono (e : Entry) (h : e.status ≠ "OK") :
    ((e.wordforms).2.1).status ≠ "OK" := by
  cases hc : e.wordformsCache with
  | some ws => simpa [Entry.wordforms, hc] using h
  | none => simp [Entry.wordforms, hc, h]

theorem flexion_tpls_status_mono (f : EntryFlexion) (h : f.status ≠ "OK") :
    ((f.flexion_tpls).2.1).status ≠ "OK" := by
  cases hc : f.flexTplsCache with
  | some ts => simpa [EntryFlexion.flexion_tpls, hc] using h
  | none => simp [EntryFlexion.flexion_tpls, hc, h]

theorem flexion_pos_status_mono (f : EntryFlexion) (h : f.status ≠ "OK") :
    ((f.pos).2.1).status ≠ "OK" := by
  cases hc : f.posCache with
  | some ps => simpa [EntryFlexion.pos, hc] using h
  | none => simp [EntryFlexion.pos, hc, h]

theorem flexion_infl_status_mono (f : EntryFlexion) (h : f.status ≠ "OK") :
    ((f.inflections).2.1).status ≠ "OK" := by
  unfold EntryFlexion.inflections
  exact flexion_tpls_status_mono f h

theorem wortart_status_mono (w : WordForm) (h : w.status ≠ "OK") :
    ((w.wortart_tpls).2.1).status ≠ "OK" := by
  cases hc : w.wortartCache with
  | some ts => simpa [WordForm.wortart_tpls, hc] using h
  | none =>
    simp only [WordForm.wortart_tpls, hc]
    split
    · exact stNoWortart_ne _
    · exact h

theorem wf_pos_status_mono (w : WordForm) (h : w.status ≠ "OK") :
    ((w.pos).2.1).status ≠ "OK" := by
  cases hc : w.posCache with
  | some ps => simpa [WordForm.pos, hc] using h
  | none =>
    simp only [WordForm.pos, hc]
    split
    · exact stNoPOS_ne _
    · exact wortart_status_mono w h

theorem uebersicht_status_mono (w : WordForm) (h : w.status ≠ "OK") :
    ((w.uebersichten_tpls).2.1).status ≠ "OK" := by
  cases hc : w.uebersichtCache with
  | some ts => simpa [WordForm.uebersichten_tpls, hc] using h
  | none => simpa [WordForm.uebersichten_tpls, hc] using h

theorem wf_infl_status_mono (w : WordForm) (all : Bool) (h : w.status ≠ "OK") :
    ((WordForm.inflections all w).2.1).status ≠ "OK" := by
  unfold WordForm.inflections
  cases all with
  | true => simpa using uebersicht_status_mono w h
  | false => simpa using uebersicht_status_mono w h

theorem flexionseite_status_mono (P : String → Wikicode)
    (D : List (String × String)) (F : String → String × String)
    (w : WordForm) (h : w.status ≠ "OK") :
    ((w.flexionseite P D F).2.1).status ≠ "OK" := by
  unfold WordForm.flexionseite
  rw [if_pos h]
  exact h

/-- C4: once the status holds a non-"OK" value, no sequence of later
operations ever sets it back to "OK" — every operation either keeps the
current status or replaces it with another diagnostic, and no diagnostic
equals "OK". -/
theorem status_monotone (P : String → Wikicode) (D : List (String × String))
    (F : String → String × String) :
    (∀ (e : Entry) (n : Nat), e.status ≠ "OK" → (entryWfIter n e).status ≠ "OK") ∧
    (∀ (f : EntryFlexion) (ops : List FxOp), f.status ≠ "OK" →
        (ops.foldl (fun g op => fxStep op g) f).status ≠ "OK") ∧
    (∀ (w : WordForm) (ops : List WfOp), w.status ≠ "OK" →
        (ops.foldl (fun v op => wfStep P D F op v) w).status ≠ "OK") := by
  refine ⟨?_, ?_, ?_⟩
  · intro e n
    induction n generalizing e with
    | zero => exact fun h => h
    | succ n ih =>
      intro h
      exact ih ((e.wordforms).2.1) (entry_wordforms_status_mono e h)
  · intro f ops
    induction ops generalizing f with
    | nil => exact fun h => h
    | cons op ops ih =>
      intro h
      rw [List.foldl_cons]
      cases op with
      | posTags => exact ih _ (flexion_pos_status_mono f h)
      | flexTpls => exact ih _ (flexion_tpls_status_mono f h)
      | infl => exact ih _ (flexion_infl_status_mono f h)
  · intro w ops
    induction ops generalizing w with
    | nil => exact fun h => h
    | cons op ops ih =>
      intro h
      rw [List.foldl_cons]
      cases op with
      | wortart => exact ih _ (wortart_status_mono w h)
      | posTags => exact ih _ (wf_pos_status_mono w h)
      | uebersicht => exact ih _ (uebersicht_status_mono w h)
      | overviewAll => exact ih _ (wf_infl_status_mono w true h)
      | overviewFiltered => exact ih _ (wf_infl_status_mono w false h)
      | flexPage => exact ih _ (flexionseite_status_mono P D F w h)

/-- Witness for C4 at concrete states and operation sequences. -/
theorem status_monotone_witness :
    (entryWfIter 2 entryBad).status ≠ "OK" ∧
    (([FxOp.posTags, FxOp.flexTpls, FxOp.infl]).foldl
        (fun g op => fxStep op g) flexBad).status ≠ "OK" ∧
    (([WfOp.posTags, WfOp.overviewAll, WfOp.flexPage, WfOp.wortart]).foldl
        (fun v op => wfStep P0 [] F0 op v) wfNoWortartTouched).status ≠ "OK" :=
  ⟨(status_monotone P0 [] F0).1 entryBad 2 (by decide),
   (status_monotone P0 [] F0).2.1 flexBad [FxOp.posTags, FxOp.flexTpls, FxOp.infl]
     (by decide),
   (status_monotone P0 [] F0).2.2 wfNoWortartTouched
     [WfOp.posTags, WfOp.overviewAll, WfOp.flexPage, WfOp.wortart] (by decide)⟩

/-! ## C5 -/

/-- Helper for C5: a token found by the POS scanner is one of the fixed
grammatical-category tokens. -/
theorem searchTokens_mem (l : List Char) : ∀ tok, searchTokens l = some tok →
    tok ∈ posTokens := by
  induction l with
  | nil => intro tok h; simp [searchTokens] at h
  | cons c rest ih =>
    intro tok h
    rw [searchTokens] at h
    cases hta : tokenAt (c :: rest) with
    | some t =>
      rw [hta] at h
      injection h with h
      subst h
      exact List.mem_of_find?_eq_some hta
    | none =>
      rw [hta] at h
      exact ih tok h

/-- C5: with status "OK", `EntryFlexion.pos` collects, in document order, the
POS token matched in the name of every template of the body of the German
section (headings excluded); every collected entry is one of the fixed tokens;
zero matches record the no-POS diagnostic; more than one distinct match
records the multiple-POS diagnostic; the full list is returned in every
case. -/
theorem flexion_pos_spec (f : EntryFlexion)
    (h : f.status = "OK") (hp : f.posCache = none) (ht : f.flexTplsCache = none) :
    (f.pos).1 = ((bodySections (f.german.getD [])).flatMap filterTemplates).filterMap
        (fun t => searchTokens t.name.data) ∧
    (∀ x ∈ (f.pos).1, x ∈ posTokens) ∧
    ((f.pos).1 = [] → ((f.pos).2.1).status = stNoPOS f.title) ∧
    (1 < ((f.pos).1).dedup.length → ((f.pos).2.1).status = stMultiPOS f.title) := by
  obtain ⟨ti, te, st, ef, pa, ge, pc, fc⟩ := f
  have h1 : st = "OK" := h
  have h2 : pc = none := hp
  have h3 : fc = none := ht
  subst h1 h2 h3
  set ts := (bodySections (ge.getD [])).flatMap filterTemplates
  set ps := ts.filterMap (fun t => searchTokens t.name.data)
  have hred : EntryFlexion.pos ⟨ti, te, "OK", ef, pa, ge, none, none⟩
      = (ps,
          ⟨ti, te,
            if ps.length > 1 then stMultiPOS ti
            else if ps = [] then stNoPOS ti
            else if ts = [] then stNoFlexTpls
            else if ts.length > 1 then stMultiFlexTpls
            else "OK",
            ef, pa, ge, some ps, some ts⟩,
          [Ev.traverse]) := rfl
  rw [hred]
  refine ⟨rfl, ?_, ?_, ?_⟩
  · intro x hx
    obtain ⟨t, _, hfind⟩ := List.mem_filterMap.mp hx
    exact searchTokens_mem _ x hfind
  · intro hps
    have hps2 : ps = [] := hps
    simp [hps2]
  · intro hlen
    have hlen2 : 1 < ps.dedup.length := hlen
    have hgt : 1 < ps.length := lt_of_lt_of_le hlen2 (List.dedup_sublist _).length_le
    simp [hgt]

/-- Witness for C5 at a flexion page with two distinct POS matches and one
with none. -/
theorem flexion_pos_spec_witness :
    ((flexStateMulti.pos).2.1).status = stMultiPOS "Flexion:Haus" ∧
    ((flexStateEmpty.pos).2.1).status = stNoPOS "Flexion:leer" :=
  ⟨(flexion_pos_spec flexStateMulti rfl rfl rfl).2.2.2 (by decide),
   (flexion_pos_spec flexStateEmpty rfl rfl rfl).2.2.1 (by decide)⟩

/-! ## C7 -/

/-- Helper for C7: a `WordForm.pos` call logs at most one traversal and in
particular never performs a page lookup. -/
theorem pos_events (w : WordForm) :
    (w.pos).2.2 = [] ∨ (w.pos).2.2 = [Ev.traverse] := by
  cases hp : w.posCache with
  | some ps => left; simp [WordForm.pos, hp]
  | none =>
    cases hw : w.wortartCache with
    | some ts => left; simp [WordForm.pos, WordForm.wortart_tpls, hp, hw]
    | none => right; simp [WordForm.pos, WordForm.wortart_tpls, hp, hw]

/-- C7: the companion Flexion page is resolved only for word forms whose
status is "OK" and whose POS list meets \x7b"Verb", "Adjektiv"\x7d; otherwise the
result is null and no archive or network lookup happens; in the positive case
exactly one lookup of "Flexion:" + parent title is performed, through the same
origin (dump or export) as the parent entry. -/
theorem flexionseite_policy (P : String → Wikicode) (D : List (String × String))
    (F : String → String × String) (w : WordForm) :
    (w.status ≠ "OK" →
        (w.flexionseite P D F).1 = none ∧
        ((w.flexionseite P D F).2.2).filter Ev.isFetch = []) ∧
    ("Verb" ∉ (w.pos).1 ∧ "Adjektiv" ∉ (w.pos).1 →
        (w.flexionseite P D F).1 = none ∧
        ((w.flexionseite P D F).2.2).filter Ev.isFetch = []) ∧
    (w.status = "OK" → ("Verb" ∈ (w.pos).1 ∨ "Adjektiv" ∈ (w.pos).1) →
      (w.entryFrom = some "from dump" →
          (w.flexionseite P D F).1
            = some (EntryFlexion.from_dump P D ("Flexion:" ++ w.entryTitle)) ∧
          ((w.flexionseite P D F).2.2).filter Ev.isFetch
            = [Ev.fetchDump ("Flexion:" ++ w.entryTitle)]) ∧
      (w.entryFrom = some "from export" →
          (w.flexionseite P D F).1
            = some (EntryFlexion.from_export P F ("Flexion:" ++ w.entryTitle)) ∧
          ((w.flexionseite P D F).2.2).filter Ev.isFetch
            = [Ev.fetchExport ("Flexion:" ++ w.entryTitle)])) := by
  refine ⟨?_, ?_, ?_⟩
  · intro hs
    unfold WordForm.flexionseite
    rw [if_pos hs]
    exact ⟨rfl, rfl⟩
  · rintro ⟨hv, ha⟩
    by_cases hs : w.status ≠ "OK"
    · unfold WordForm.flexionseite
      rw [if_pos hs]
      exact ⟨rfl, rfl⟩
    · constructor
      · simp [WordForm.flexionseite, hs, hv, ha]
      · rcases pos_events w with he | he <;>
          simp [WordForm.flexionseite, hs, hv, ha, he, Ev.isFetch]
  · intro hOK hmem
    have hs : ¬ w.status ≠ "OK" := by simp [hOK]
    constructor
    · intro hfrom
      constructor
      · simp [WordForm.flexionseite, hs, hfrom]
        rw [if_pos hmem]
      · simp [WordForm.flexionseite, hs, hfrom]
        rw [if_pos hmem]
        rcases pos_events w with he | he <;> simp [he, Ev.isFetch]
    · intro hfrom
      constructor
      · simp [WordForm.flexionseite, hs, hfrom]
        rw [if_pos hmem]
      · simp [WordForm.flexionseite, hs, hfrom]
        rw [if_pos hmem]
        rcases pos_events w with he | he <;> simp [he, Ev.isFetch]

/-- Witness for C7: a diagnostic-status word form, a noun, a dump-origin verb
and an export-origin verb. -/
theorem flexionseite_policy_witness :
    ((wfNoWortartTouched.flexionseite P0 [] F0).1 = none ∧
      ((wfNoWortartTouched.flexionseite P0 [] F0).2.2).filter Ev.isFetch = []) ∧
    ((wfSubst.flexionseite P0 [] F0).1 = none ∧
      ((wfSubst.flexionseite P0 [] F0).2.2).filter Ev.isFetch = []) ∧
    ((wfVerb.flexionseite P0 [] F0).1
        = some (EntryFlexion.from_dump P0 [] "Flexion:gehen") ∧
      ((wfVerb.flexionseite P0 [] F0).2.2).filter Ev.isFetch
        = [Ev.fetchDump "Flexion:gehen"]) ∧
    ((wfVerbExport.flexionseite P0 [] F0).1
        = some (EntryFlexion.from_export P0 F0 "Flexion:gehen") ∧
      ((wfVerbExport.flexionseite P0 [] F0).2.2).filter Ev.isFetch
        = [Ev.fetchExport "Flexion:gehen"]) :=
  ⟨(flexionseite_policy P0 [] F0 wfNoWortartTouched).1 (by decide),
   (flexionseite_policy P0 [] F0 wfSubst).2.1 (by decide),
   ((flexionseite_policy P0 [] F0 wfVerb).2.2 (by decide)
      (Or.inl (by decide))).1 (by decide),
   ((flexionseite_policy P0 [] F0 wfVerbExport).2.2 (by decide)
      (Or.inl (by decide))).2 (by decide)⟩

/-! ## C8 -/

/-- C8 (code bug): `hasattr(self, '__flexionseite')` tests the unmangled name
while the assignments create the mangled `_WordForm__flexionseite`, so the
companion lookup is recomputed on every access: on a verb word form the first
call performs an archive lookup, records the (mangled) cache field, and a
second call on the resulting state performs the same archive lookup again. -/
theorem flexionseite_recompute_bug :
    ((wfVerb.flexionseite P0 [] F0).2.2).filter Ev.isFetch
        = [Ev.fetchDump "Flexion:gehen"] ∧
    ((wfVerb.flexionseite P0 [] F0).2.1).flexCacheMangled ≠ none ∧
    ((((wfVerb.flexionseite P0 [] F0).2.1).flexionseite P0 [] F0).2.2).filter Ev.isFetch
        = [Ev.fetchDump "Flexion:gehen"] := by
  decide

/-! ## C10 -/

/-- Helper for C10: a successful content scan splits the scanned text into the
consumed content followed by a blank line. -/
theorem scanContent_sound (r : List Char) : ∀ acc out, scanContent acc r = some out →
    ∃ mid post, out = acc.reverse ++ mid ∧ r = mid ++ nl :: nl :: post := by
  induction r with
  | nil => intro acc out h; simp [scanContent] at h
  | cons c rest ih =>
    intro acc out h
    simp only [scanContent] at h
    by_cases hc : c = nl ∧ rest.head? = some nl
    · rw [if_pos hc] at h
      injection h with h
      obtain ⟨hc1, hc2⟩ := hc
      cases rest with
      | nil => simp at hc2
      | cons d rest2 =>
        have hd : d = nl := by simpa using hc2
        refine ⟨[], rest2, ?_, ?_⟩
        · simp [← h]
        · simp [hc1, hd]
    · rw [if_neg hc] at h
      obtain ⟨mid, post, h1, h2⟩ := ih (c :: acc) out h
      refine ⟨c :: mid, post, ?_, ?_⟩
      · simpa using h1
      · simp [h2]

/-- Helper for C10: a successful match attempt at one position splits the text
into marker, nonempty content and a blank line. -/
theorem tryAt_sound (mk s out : List Char) (h : tryAt mk s = some out) :
    ∃ post, s = mk ++ out ++ nl :: nl :: post ∧ out ≠ [] := by
  unfold tryAt at h
  by_cases hpre : mk.isPrefixOf s
  · rw [if_pos hpre] at h
    obtain ⟨t, ht⟩ := List.isPrefixOf_iff_prefix.mp hpre
    have hdrop : s.drop mk.length = t := by rw [← ht, List.drop_left]
    rw [hdrop] at h
    cases t with
    | nil => simp at h
    | cons c rest =>
      obtain ⟨mid, post, h1, h2⟩ := scanContent_sound rest [c] out h
      refine ⟨post, ?_, ?_⟩
      · rw [← ht, h2]
        simp [h1]
      · simp [h1]
  · rw [if_neg hpre] at h
    simp at h

/-- Helper for C10: a successful leftmost search splits the text into an
arbitrary prefix, the marker, nonempty content and a blank line. -/
theorem searchFrom_sound (s : List Char) : ∀ mk out, searchFrom mk s = some out →
    ∃ pre post, s = pre ++ mk ++ out ++ nl :: nl :: post ∧ out ≠ [] := by
  induction s with
  | nil => intro mk out h; simp [searchFrom] at h
  | cons c rest ih =>
    intro mk out h
    simp only [searchFrom] at h
    cases hta : tryAt mk (c :: rest) with
    | some o =>
      rw [hta] at h
      injection h with h
      obtain ⟨post, h1, h2⟩ := tryAt_sound mk (c :: rest) o hta
      subst h
      exact ⟨[], post, by simpa using h1, h2⟩
    | none =>
      rw [hta] at h
      obtain ⟨pre, post, h1, h2⟩ := ih mk out h
      exact ⟨c :: pre, post, by simp [h1], h2⟩

/-- C10: `other_content_extract` returns a non-null result only when the raw
section text contains a blank line, immediately followed by the bare label
line, then at least one character of content terminated by a blank line: any
successful result decomposes the text around the marker with nonempty
content.  (The hypothesis on `name` marks the regex-literal names for which
the embedding is faithful to the interpolated-pattern source.) -/
theorem other_content_extract_sound (name text content : String)
    (_hname : ∀ c ∈ name.data, regexPlainChar c)
    (h : other_content_extract name text = some content) :
    content ≠ "" ∧
    ∃ pre post : String,
      text = pre ++ ocMarker name ++ content ++ "\n\n" ++ post := by
  unfold other_content_extract at h
  cases hs : searchFrom (ocMarker name).data text.data with
  | none => rw [hs] at h; simp at h
  | some cs =>
    rw [hs] at h
    simp only [Option.map_some'] at h
    injection h with h
    have hcs : content.data = cs := by rw [← h]
    obtain ⟨pre, post, h1, h2⟩ := searchFrom_sound text.data (ocMarker name).data cs hs
    constructor
    · intro hemp
      apply h2
      have hdata : content.data = [] := by rw [hemp]
      rw [hcs] at hdata
      exact hdata
    · refine ⟨String.mk pre, String.mk post, ?_⟩
      apply String.ext
      have hnn : ("\n\n" : String).data = [nl, nl] := rfl
      simp only [String.data_append, hnn]
      rw [h1, hcs]
      simp [nl]

/-- Witness for C10 at a concrete labeled paragraph. -/
theorem other_content_extract_sound_witness :
    other_content_extract "Bedeutungen" bedeutungenText = some ":[1] Gebäude" ∧
    (":[1] Gebäude" : String) ≠ "" ∧
    (∃ pre post : String,
      bedeutungenText = pre ++ ocMarker "Bedeutungen" ++ ":[1] Gebäude" ++ "\n\n" ++ post) := by
  have h := other_content_extract_sound "Bedeutungen" bedeutungenText ":[1] Gebäude"
    (by decide) (by decide)
  exact ⟨by decide, h.1, h.2⟩

end DeWiktio
